import Mathlib

/-!
Verification of the log-generator ML pipeline specification against a shallow
embedding of the Python sources `src/python/pattern_learning.py` and
`src/python/ml_models.py`.

Conventions of the embedding:
* Machine floats are modelled by `ℚ`; a numpy value that is not a finite
  number (NaN or an infinity, as produced by a division by zero with warnings
  suppressed) is modelled by `none : Option ℚ`.
* External library calls (scikit-learn model fitting and scoring, Python's
  string hash, the regex engine's match results, `json.loads`) are oracles:
  their outputs are taken as inputs of the embedded functions, while every
  line of the repository's own Python is translated directly.
* Python dictionaries whose keys are read with `dict.get(key, default)` are
  modelled as structures with `Option`-typed fields, `none` meaning the key
  is absent, so that `get` becomes `Option.getD`.  For the pattern-learning
  entries, whose values come from `json.loads`, a present key can also hold
  JSON `null` (Python `None`), so their fields distinguish absent keys,
  present-but-null values and string values.
-/

namespace Py

/-- Substring occurrence on character lists: `needle` occurs contiguously
somewhere in `hay` (Python's `needle in hay` on strings). -/
def containsSub : List Char → List Char → Bool
  | hay, needle =>
    needle.isPrefixOf hay ||
    match hay with
    | [] => false
    | _ :: rest => containsSub rest needle

/-- Python `str.lower()` (the messages and keywords involved are ASCII, on
which `Char.toLower` agrees with Python). -/
def lowerStr (s : String) : String := String.map Char.toLower s

/-- Python `str.count(sub)`: the number of non-overlapping occurrences of
`sub`, scanning left to right; counting an occurrence resumes after it.
`''.count('')` style calls return `len + 1` as in Python, though every
needle used by the sources is a non-empty literal. -/
def pyCount (hay needle : List Char) : ℕ :=
  if hn : needle = [] then hay.length + 1
  else
    match hay with
    | [] => 0
    | c :: rest =>
      if needle.isPrefixOf (c :: rest) then
        1 + pyCount ((c :: rest).drop needle.length) needle
      else
        pyCount rest needle
termination_by hay.length
decreasing_by
· have h1 : 0 < needle.length := List.length_pos.mpr hn
  simp only [List.length_drop, List.length_cons]
  omega
· simp only [List.length_cons]
  omega

/-- Python `str.split()` with no separator: split on whitespace runs and
drop empty pieces; this is its word count `len(s.split())`. -/
def wordCount (s : String) : ℕ :=
  ((s.split Char.isWhitespace).filter (fun w => !w.isEmpty)).length

end Py

namespace PatternLearning

/-- A Python value held under a key of a log-entry dictionary in
`pattern_learning.py`.  The values this pipeline produces or reads are
strings (regex capture groups, JSON strings, the string defaults of
`dict.get`) and Python `None`, which `json.loads` yields for a JSON `null`
under a *present* key. -/
inductive PyVal where
  | null
  | str (s : String)
deriving DecidableEq

/-- Python `str(v)` for such a value: `str(None)` is the string `'None'`. -/
def PyVal.pyStr : PyVal → String
  | .null => "None"
  | .str s => s

/-- `log_entry.get(key, default)`: the default applies only when the key is
absent, not when it is present with value `None`. -/
def getVal (field : Option PyVal) (default : PyVal) : PyVal :=
  field.getD default

/-- pandas `Series.isna` on one cell of an object column holding such a
value: Python `None` is NA, a string (even the empty string) is not.
Modelled from the pandas semantics used at `pattern_learning.py:188`. -/
def pd_isna : PyVal → Bool
  | .null => true
  | .str _ => false

/-- Mean of a boolean pandas column (`Series.mean` after the implicit
bool-to-float cast), as used for `error_rate` / `auth_rate` / the
error-keyword fraction.  On the empty column pandas returns NaN; the callers
only compare the result with positive constants, for which the `0` returned
here by rational division-by-zero is observationally identical. -/
def pandasMeanBool (l : List Bool) : ℚ := (l.countP id : ℚ) / (l.length : ℚ)

/-- `LogPatternLearner.calculate_confidence` (pattern_learning.py lines
208-217).  The Python reads its two arguments only through `df.empty`,
`len(df)`, `not patterns` and `len(patterns)`, so the embedding takes the two
lengths: `n` is the row count of `df` and `nPatterns` is `len(patterns)`.
`data_quality = min(1.0, len(df)/1000)`, `pattern_consistency =
len(patterns)/10`, result `min(1.0, (data_quality + pattern_consistency)/2)`,
with an early `0.0` for an empty frame or empty pattern list. -/
def calculate_confidence (n : ℕ) (nPatterns : ℕ) : ℚ :=
  if n = 0 ∨ nPatterns = 0 then 0
  else
    let data_quality : ℚ := min 1 ((n : ℚ) / 1000)
    let pattern_consistency : ℚ := (nPatterns : ℚ) / 10
    min 1 ((data_quality + pattern_consistency) / 2)

/-- The confidence formula as the specification sentence words it (claim C5):
the average of a data-volume term capped at 1.0 and a pattern-count term
*individually* capped at 1.0.  Stated from the spec's words, to be compared
with `calculate_confidence`, which is translated from the source. -/
def confidenceSpecC5 (n : ℕ) (nPatterns : ℕ) : ℚ :=
  if n = 0 ∨ nPatterns = 0 then 0
  else (min 1 ((n : ℚ) / 1000) + min 1 ((nPatterns : ℚ) / 10)) / 2

/-- Case-insensitive substring test: Python's `needle in haystack.lower()`
and `re.search(needle, haystack, re.IGNORECASE)` for a literal keyword. -/
def containsCI (haystack needle : String) : Bool :=
  Py.containsSub (haystack.toList.map Char.toLower) needle.toList

/-- One or more leading decimal digits followed by a literal dot, the
building block of the regex `\d+\.\d+\.\d+\.\d+`; returns the remainder
after the dot, or `none` if the text does not start with `digits '.'`. -/
def digitsDot (cs : List Char) : Option (List Char) :=
  match cs.span Char.isDigit with
  | ([], _) => none
  | (_ :: _, rest) =>
    match rest with
    | '.' :: rest' => some rest'
    | _ => none

/-- Does the regex `\d+\.\d+\.\d+\.\d+` match at the head of `cs`?
The dots are escaped in the source pattern, so each `\d+` is a maximal
digit run followed by a literal dot (no backtracking is possible because
a dot is not a digit). -/
def ipMatchHere (cs : List Char) : Bool :=
  match digitsDot cs with
  | none => false
  | some r1 =>
    match digitsDot r1 with
    | none => false
    | some r2 =>
      match digitsDot r2 with
      | none => false
      | some r3 => !(r3.takeWhile Char.isDigit).isEmpty

/-- `re.search(r'\d+\.\d+\.\d+\.\d+', s)`: the pattern matches somewhere in
the string, i.e. at some start position. -/
def hasIPpattern : List Char → Bool
  | [] => false
  | c :: rest => ipMatchHere (c :: rest) || hasIPpattern rest

/-- `re.search(r'error|fail|exception|timeout', msg, re.IGNORECASE)`
(pattern_learning.py line 103). -/
def hasErrorKeywords (msg : String) : Bool :=
  ["error", "fail", "exception", "timeout"].any (containsCI msg)

/-- `re.search(r'login|auth|password|token', msg, re.IGNORECASE)`
(pattern_learning.py line 104). -/
def hasAuthKeywords (msg : String) : Bool :=
  ["login", "auth", "password", "token"].any (containsCI msg)

/-- A log-entry dictionary as consumed by
`LogPatternLearner.extract_features`: one `Option PyVal` field per key the
Python reads with `log_entry.get(key, default)` — `none` means the key is
absent, `some PyVal.null` a present key holding JSON `null` (as `json.loads`
yields for `{"timestamp": null}`), `some (PyVal.str s)` a string value —
plus the keys produced by `parse_text_log` that are never read downstream
(`process`, `path`, `size`) and the `raw` marker of the fallback branch. -/
structure PLEntry where
  timestamp : Option PyVal := none
  level : Option PyVal := none
  host : Option PyVal := none
  process : Option PyVal := none
  component : Option PyVal := none
  ip : Option PyVal := none
  method : Option PyVal := none
  status : Option PyVal := none
  size : Option PyVal := none
  path : Option PyVal := none
  message : Option PyVal := none
  raw : Bool := false
deriving DecidableEq

/-- The outcome of the ordered regex attempts inside
`LogPatternLearner.parse_text_log` (pattern_learning.py lines 71-83) on one
line: which of the three patterns (syslog, Apache/Nginx, generic
timestamp+level) is the first to match, with its named capture groups, or no
match at all.  The regex engine itself is external; its verdict on the line
is part of the input. -/
inductive TextParse where
  | syslogMatch (timestamp host process message : String)
  | apacheMatch (ip method path status size : String)
  | genericMatch (timestamp level message : String)
  | noMatch
deriving DecidableEq

/-- A non-JSON log line together with the regex verdict on it. -/
structure PlainLine where
  text : String
  parse : TextParse
deriving DecidableEq

/-- `LogPatternLearner.parse_text_log` (pattern_learning.py lines 68-86):
first-match-wins over the three patterns via `match.groupdict()`, with the
whole line as a raw message when none matches.  Every branch returns a
non-empty dictionary, so the caller's `if log_entry:` truthiness guard always
passes. -/
def parse_text_log (p : PlainLine) : PLEntry :=
  match p.parse with
  | .syslogMatch t h pr m =>
      { timestamp := some (.str t), host := some (.str h),
        process := some (.str pr), message := some (.str m) }
  | .apacheMatch ip me pa st sz =>
      { ip := some (.str ip), method := some (.str me), path := some (.str pa),
        status := some (.str st), size := some (.str sz) }
  | .genericMatch t lv m =>
      { timestamp := some (.str t), level := some (.str lv), message := some (.str m) }
  | .noMatch => { message := some (.str p.text), raw := true }

/-- One row of the DataFrame built by `parse_log_files`: the dictionary
returned by `LogPatternLearner.extract_features` (pattern_learning.py lines
88-107).  `message` goes through `str(...)` in the source and so is always a
string; the other textual columns hold the value `get` returned — a string,
or Python `None` when the key was present with JSON `null`. -/
structure FeatureRecord where
  source_file : String
  line_number : ℕ
  message : String
  level : PyVal
  timestamp : PyVal
  host : PyVal
  component : PyVal
  ip_address : PyVal
  method : PyVal
  status_code : PyVal
  message_length : ℕ
  has_ip : Bool
  has_error_keywords : Bool
  has_auth_keywords : Bool
deriving DecidableEq

/-- `LogPatternLearner.extract_features` (pattern_learning.py lines 88-107):
each field is `log_entry.get(key, default)` — `'INFO'` for `level`, the
empty string for the other textual keys, with the default applying only to
absent keys — plus the derived numeric/boolean features of
`str(log_entry.get('message', ''))`. -/
def extract_features (e : PLEntry) (source_file : String) (line_num : ℕ) : FeatureRecord :=
  let msg := (getVal e.message (.str "")).pyStr
  { source_file := source_file
    line_number := line_num
    message := msg
    level := getVal e.level (.str "INFO")
    timestamp := getVal e.timestamp (.str "")
    host := getVal e.host (.str "")
    component := getVal e.component (.str "")
    ip_address := getVal e.ip (.str "")
    method := getVal e.method (.str "")
    status_code := getVal e.status (.str "")
    message_length := msg.length
    has_ip := hasIPpattern msg.toList
    has_error_keywords := hasErrorKeywords msg
    has_auth_keywords := hasAuthKeywords msg }

/-- One input line of a log file as seen by the loop in
`LogPatternLearner.parse_log_files` (pattern_learning.py lines 47-60), after
`line.strip()` and with the verdict of `json.loads` as an oracle:
* `blank` — the stripped line is empty and is skipped;
* `jsonObject e` — `json.loads` succeeds and yields a dict `e`;
* `jsonNonObject` — `json.loads` succeeds but yields a non-dict value (a
  bare number, string, boolean, null or array, e.g. the line `42`), on which
  `extract_features` raises `AttributeError` (`.get` on a non-dict), an
  exception the inner `except json.JSONDecodeError` does not catch;
* `plain p` — `json.loads` raises `JSONDecodeError` and the line goes to
  `parse_text_log`. -/
inductive RawLine where
  | blank
  | jsonObject (e : PLEntry)
  | jsonNonObject
  | plain (p : PlainLine)
deriving DecidableEq

/-- Is this line skipped by the `if not line: continue` test? -/
def RawLine.isBlank : RawLine → Bool
  | .blank => true
  | _ => false

/-- The per-file loop body of `parse_log_files`, over lines paired with
their `enumerate` index.  A `jsonNonObject` line raises `AttributeError`
inside the `try` of lines 45-64; the `except Exception` handler catches it
and `continue`s to the next file, so the remaining lines of this file
produce no records (records appended earlier are kept). -/
def processFile (source_file : String) : List (ℕ × RawLine) → List FeatureRecord
  | [] => []
  | (_, .blank) :: rest => processFile source_file rest
  | (n, .jsonObject e) :: rest =>
      extract_features e source_file n :: processFile source_file rest
  | (_, .jsonNonObject) :: _ => []
  | (n, .plain p) :: rest =>
      extract_features (parse_text_log p) source_file n :: processFile source_file rest

/-- One named input file: `none` content models a path that fails the
`os.path.exists` check or whose `open` raises (both skip the file). -/
structure FileInput where
  name : String
  content : Option (List RawLine)

/-- `LogPatternLearner.parse_log_files` (pattern_learning.py lines 37-66):
accumulate records file by file, skipping missing/unreadable files, and
return the rows of the resulting DataFrame in input order. -/
def parse_log_files : List FileInput → List FeatureRecord
  | [] => []
  | f :: rest =>
      (match f.content with
       | none => []
       | some ls => processFile f.name ls.enum) ++ parse_log_files rest

/-- Number of non-empty (after `strip`) lines over all readable files: the
lines the specification says each contribute exactly one record. -/
def nonBlankCount : List FileInput → ℕ
  | [] => 0
  | f :: rest =>
      (match f.content with
       | none => 0
       | some ls => ls.countP (fun l => !l.isBlank)) + nonBlankCount rest

/-- One entry of the `predictions` list built by
`LogPatternLearner.generate_predictions`.  The Python dictionaries carry a
`description` string (for the error prediction it interpolates the computed
rate) and an extra `details`/`recommendation` sentence; the claims only
distinguish the entries by kind and confidence, which are modelled exactly. -/
structure Prediction where
  ptype : String
  description : String
  confidence : ℚ
deriving DecidableEq

/-- The temporal prediction appended at pattern_learning.py lines 189-194. -/
def temporalPrediction : Prediction :=
  { ptype := "temporal", description := "Peak activity prediction", confidence := 4 / 5 }

/-- The error-rate prediction appended at pattern_learning.py lines 199-204
(its Python description also interpolates the rate as a percentage). -/
def errorRatePrediction : Prediction :=
  { ptype := "error_prediction", description := "High error rate detected", confidence := 7 / 10 }

/-- `LogPatternLearner.generate_predictions` (pattern_learning.py lines
183-206).  The first guard is `'timestamp' in df.columns and not
df['timestamp'].isna().all()`: for a frame built from `extract_features`
rows the `timestamp` column exists exactly when the frame is non-empty,
`Series.all` on an empty selection is `True`, and a cell is NA exactly when
its entry held Python `None` (a JSON `null` under a present key).  The
`patterns` argument is accepted and never read, as in the source. -/
def generate_predictions (df : List FeatureRecord) (_patterns : List α) : List Prediction :=
  (if !df.isEmpty && !(df.all fun r => pd_isna r.timestamp)
   then [temporalPrediction] else []) ++
  (let error_rate := pandasMeanBool (df.map (·.has_error_keywords))
   if error_rate > 1 / 10 then [errorRatePrediction] else [])

/-- One entry of the pattern list built by
`LogPatternLearner.extract_cluster_patterns` (pattern_learning.py lines
159-181).  The two `value_counts().head(3)` tables (`common_levels`,
`common_components`) are pandas-internal orderings no claim mentions and are
not modelled; every other field is. -/
structure Pattern where
  id : ℕ
  size : ℕ
  percentage : ℚ
  avg_message_length : ℚ
  error_rate : ℚ
  auth_rate : ℚ
  sample_messages : List String
deriving DecidableEq

/-- `pandas.Series.unique`: the distinct values in order of first
appearance. -/
def firstOcc : List ℕ → List ℕ
  | [] => []
  | c :: rest => c :: firstOcc (rest.filter (fun x => x ≠ c))
termination_by l => l.length
decreasing_by
  simp only [List.length_cons]
  exact Nat.lt_succ_of_le (List.length_filter_le _ _)

/-- `LogPatternLearner.extract_cluster_patterns` (pattern_learning.py lines
159-181) over the rows paired with their kmeans cluster label
(`df['cluster']`). -/
def extract_cluster_patterns (rows : List (FeatureRecord × ℕ)) : List Pattern :=
  (firstOcc (rows.map Prod.snd)).map fun cid =>
    let members := (rows.filter (fun r => r.2 == cid)).map Prod.fst
    { id := cid
      size := members.length
      percentage := (members.length : ℚ) / (rows.length : ℚ) * 100
      avg_message_length :=
        (members.map fun m => (m.message_length : ℚ)).sum / (members.length : ℚ)
      error_rate := pandasMeanBool (members.map (·.has_error_keywords))
      auth_rate := pandasMeanBool (members.map (·.has_auth_keywords))
      sample_messages := (members.map (·.message)).take 3 }

/-- The dictionary returned by `LogPatternLearner.learn_patterns`.  The
non-empty branch adds `model_version: '1.0.0'`; the empty-input branch omits
the key, modelled as `none`. -/
structure LearnResult where
  patterns : List Pattern
  anomalies : List FeatureRecord
  predictions : List Prediction
  confidence : ℚ
  samples_analyzed : ℕ
  model_version : Option String
deriving DecidableEq

/-- `LogPatternLearner.learn_patterns` (pattern_learning.py lines 109-157).
The TF-IDF/scaler/KMeans/IsolationForest fits are external: `kmeansFit`
gives the per-row cluster labels (`kmeans.fit_predict`) and `isoFlag` the
per-row `is_anomaly` flags (`isolation_forest.fit_predict(...) == -1`).
Everything after those two calls is translated directly: pattern
extraction, the first-10 anomaly rows, predictions, confidence, and the
sample count. -/
def learn_patterns (kmeansFit : List FeatureRecord → List ℕ)
    (isoFlag : List FeatureRecord → List Bool)
    (df : List FeatureRecord) : LearnResult :=
  if df.isEmpty then
    { patterns := [], anomalies := [], predictions := [], confidence := 0,
      samples_analyzed := 0, model_version := none }
  else
    let clusters := kmeansFit df
    let rows := df.zip clusters
    let anomalyFlags := isoFlag df
    let patterns := extract_cluster_patterns rows
    let anomaly_logs := ((df.zip anomalyFlags).filter (fun r => r.2)).map Prod.fst
    let predictions := generate_predictions df patterns
    { patterns := patterns
      anomalies := anomaly_logs.take 10
      predictions := predictions
      confidence := calculate_confidence df.length patterns.length
      samples_analyzed := df.length
      model_version := some "1.0.0" }

end PatternLearning

namespace MlModels

/-- The fields of a parsed datetime that
`LogAnomalyDetector.extract_features` reads (ml_models.py lines 88-94):
`hour`, `day_of_week` (Monday = 0; `Timestamp.weekday()` returns the same
value, so `is_weekend` is `dayOfWeek >= 5`), `day` and `month`.
`pd.to_datetime` is external; an entry carries its parsed timestamp. -/
structure Timestamp where
  hour : ℕ
  dayOfWeek : ℕ
  day : ℕ
  month : ℕ
deriving DecidableEq

/-- The `source` sub-dictionary: `entry.get('source', {}).get('name', '')`
(ml_models.py line 117). -/
structure MLSource where
  name : Option String := none
deriving DecidableEq

/-- The `metadata` dictionary as read at ml_models.py lines 121-127: its
key set (for `len(metadata)` and `'user' in metadata`) and its `str()`
rendering (for the `'ip'`/`'error'` substring tests). -/
structure MLMeta where
  keys : List String := []
  text : String := "\x7b\x7d"
deriving DecidableEq

/-- A log entry as consumed by `LogAnomalyDetector.extract_features`
(ml_models.py lines 80-140): one `Option` field per key read via
`entry.get`, `none` meaning the key is absent.  An absent `timestamp` makes
the Python fall back to `datetime.now()`, so the extractor below takes the
current clock reading as an explicit argument. -/
structure MLEntry where
  timestamp : Option Timestamp := none
  message : Option String := none
  level : Option String := none
  source : Option MLSource := none
  metadata : Option MLMeta := none
deriving DecidableEq

/-- `int(...)` applied to a Python boolean. -/
def b2i (b : Bool) : ℤ := if b then 1 else 0

/-- The `level_map` lookup with default 1 (ml_models.py lines 112-113). -/
def levelValue : String → ℤ
  | "DEBUG" => 0
  | "INFO" => 1
  | "WARN" => 2
  | "ERROR" => 3
  | "CRITICAL" => 4
  | _ => 1

/-- `LogAnomalyDetector.extract_features` for one entry (the loop body of
ml_models.py lines 84-129), producing the 20-component feature vector in
source order.  `pyHash` is Python's process-wide string hash (fixed within
one interpreter run); `now` is the `datetime.now()` reading used when the
entry has no `timestamp` key.  Note `message.count('error')` etc. are
case-sensitive, while the `in message.lower()` tests are not, as in the
source. -/
def extract_features (pyHash : String → ℤ) (now : Timestamp) (e : MLEntry) : List ℤ :=
  let ts := e.timestamp.getD now
  let message := e.message.getD ""
  let lmsg := Py.lowerStr message
  let source_name := ((e.source.getD {}).name).getD ""
  let metadata := e.metadata.getD {}
  let mtext := Py.lowerStr metadata.text
  [ (ts.hour : ℤ), (ts.dayOfWeek : ℤ), (ts.day : ℤ), (ts.month : ℤ),
    b2i (decide (5 ≤ ts.dayOfWeek)),
    (message.length : ℤ), (Py.wordCount message : ℤ),
    (Py.pyCount message.toList "error".toList : ℤ),
    (Py.pyCount message.toList "warning".toList : ℤ),
    (Py.pyCount message.toList "failed".toList : ℤ),
    (Py.pyCount message.toList "success".toList : ℤ),
    b2i (Py.containsSub lmsg.toList "authentication".toList),
    b2i (Py.containsSub lmsg.toList "network".toList),
    b2i (Py.containsSub lmsg.toList "database".toList),
    levelValue (e.level.getD "INFO"),
    pyHash source_name % 1000,
    (metadata.keys.length : ℤ),
    b2i (metadata.keys.contains "user"),
    b2i (Py.containsSub mtext.toList "ip".toList),
    b2i (Py.containsSub mtext.toList "error".toList) ]

/-- A fitted one-class detector together with its fitted scaler, as an
oracle over the current batch: `pred i` is `model.predict(scaled)[i]`
(+1 normal, -1 anomalous) and `score i` is
`model.decision_function(scaled)[i]` for record index `i`. -/
structure Detector where
  pred : ℕ → ℤ
  score : ℕ → ℚ

/-- numpy elementwise division of finite floats: `none` stands for a
non-finite result (NaN from 0/0, an infinity from x/0), which numpy
produces — with only a suppressed RuntimeWarning — instead of raising. -/
def npDiv (a b : ℚ) : Option ℚ := if b = 0 then none else some (a / b)

/-- `np.max(np.abs(anomaly_scores))` (ml_models.py line 206).  All mapped
entries are non-negative, so folding `max` from 0 equals the true maximum
on every non-empty batch; `np.max` raises on an empty one, which the
surrounding `except` turns into an error result. -/
def maxAbsScore (scores : List ℚ) : ℚ := (scores.map fun s => |s|).foldl max 0

/-- The per-detector `confidence_scores` vector of
`LogAnomalyDetector.predict` (ml_models.py line 206):
`np.abs(anomaly_scores) / np.max(np.abs(anomaly_scores))`, elementwise. -/
def confidence_scores (scores : List ℚ) : List (Option ℚ) :=
  scores.map fun s => npDiv |s| (maxAbsScore scores)

/-- The per-detector confidence as claim C3 words it: the raw score (not
its absolute value) divided by the detector's maximum absolute score, and 0
when that maximum is 0.  Stated from the claim's words, to be compared with
`confidence_scores`, which is translated from the source. -/
def confidenceSpecC3 (scores : List ℚ) : List ℚ :=
  scores.map fun s => if maxAbsScore scores = 0 then 0 else s / maxAbsScore scores

/-- The per-detector block of the results dictionary built at ml_models.py
lines 202-207. -/
structure DetectorResult where
  predictions : List ℤ
  anomaly_scores : List ℚ
  anomalies_detected : ℕ
  confidence_scores : List (Option ℚ)
deriving DecidableEq

/-- One iteration of the per-detector loop of `LogAnomalyDetector.predict`
(ml_models.py lines 195-207) on a batch of `n` records. -/
def runDetector (n : ℕ) (d : Detector) : DetectorResult :=
  let preds := (List.range n).map d.pred
  let scores := (List.range n).map d.score
  { predictions := preds
    anomaly_scores := scores
    anomalies_detected := preds.countP (fun p => p == -1)
    confidence_scores := confidence_scores scores }

/-- `votes` for record `i` (ml_models.py line 214): the number of detectors
whose prediction for record `i` is -1. -/
def votes (models : List Detector) (i : ℕ) : ℕ :=
  models.countP (fun d => d.pred i == -1)

/-- The `ensemble_predictions` list (ml_models.py lines 213-217): for each
record, -1 when `votes >= len(self.models) / 2` under Python's true
division, else 1. -/
def ensemble_predictions (models : List Detector) (n : ℕ) : List ℤ :=
  (List.range n).map fun i =>
    if ((votes models i : ℚ) ≥ (models.length : ℚ) / 2) then -1 else 1

/-- `np.mean` of a list of floats: sum over length, NaN (`none`) on the
empty list. -/
def npMean (l : List ℚ) : Option ℚ :=
  if l.isEmpty then none else some (l.sum / (l.length : ℚ))

/-- The `ensemble_scores` list (ml_models.py lines 215, 218): per record,
the mean of all detectors' raw anomaly scores. -/
def ensemble_scores (models : List Detector) (n : ℕ) : List (Option ℚ) :=
  (List.range n).map fun i => npMean (models.map fun d => d.score i)

/-- The mutable state of a `LogAnomalyDetector` that gates prediction:
`self.is_trained`, set to `False` in `__init__` (ml_models.py line 63) and
to `True` only at line 172, after every fit succeeded. -/
structure AnomalyDetectorState where
  is_trained : Bool
deriving DecidableEq

/-- `LogAnomalyDetector.__init__`: a fresh detector is untrained. -/
def initDetector : AnomalyDetectorState := { is_trained := false }

/-- The result of `LogAnomalyDetector.train`: an error dictionary or a
success dictionary (whose diagnostic statistics no claim mentions). -/
inductive TrainResult where
  | error (msg : String)
  | success
deriving DecidableEq

/-- `LogAnomalyDetector.train` (ml_models.py lines 142-184).  `raises`
is the oracle for the `try` block of lines 147-181: `some m` means feature
extraction or one of the scaler/model fits raised an exception with message
`m`, in which case the handler returns `{'error': m}` without reaching the
`self.is_trained = True` assignment; `none` means every fit succeeded. -/
def train (sklearnAvailable : Bool) (s : AnomalyDetectorState)
    (raises : Option String) : AnomalyDetectorState × TrainResult :=
  if !sklearnAvailable then (s, .error "scikit-learn not available")
  else
    match raises with
    | some m => (s, .error m)
    | none => ({ is_trained := true }, .success)

/-- The state after a sequence of `train` calls with the given exception
oracles. -/
def runTrains (sklearnAvailable : Bool) :
    AnomalyDetectorState → List (Option String) → AnomalyDetectorState
  | s, [] => s
  | s, r :: rest => runTrains sklearnAvailable (train sklearnAvailable s r).1 rest

/-- The result of `LogAnomalyDetector.predict`. -/
inductive PredictOutput where
  | error (msg : String)
  | success (results : List DetectorResult) (ensemble_predictions : List ℤ)
      (ensemble_scores : List (Option ℚ)) (total_samples : ℕ)
deriving DecidableEq

/-- `LogAnomalyDetector.predict` (ml_models.py lines 186-234) on a batch of
`n` records: the guard of lines 188-189 rejects an unavailable sklearn or an
untrained state with the literal error dictionary; otherwise every
detector's scoring runs (the detector oracles are total, so the `except` of
line 232 is not reached) and the ensemble predictions and mean scores are
assembled. -/
def predict (sklearnAvailable : Bool) (s : AnomalyDetectorState)
    (models : List Detector) (n : ℕ) : PredictOutput :=
  if !sklearnAvailable || !s.is_trained then
    .error "Models not available or not trained"
  else
    .success (models.map (runDetector n)) (ensemble_predictions models n)
      (ensemble_scores models n) n

/-- What `main` (ml_models.py lines 513-561) prints for one command, after
`json.loads(sys.stdin.read())` succeeded.  `forecast`, `nlp_analyze` and
`threat_intel` delegate to external-library wrappers outside the claims. -/
inductive CLIOutput where
  | trainOut (result : TrainResult)
  | predictErr (msg : String)
  | external (cmd : String)
  | unknown (cmd : String)
deriving DecidableEq

/-- The command dispatch of `main` (ml_models.py lines 526-557).  Each
branch constructs a fresh object: `anomaly_train` trains a new
`LogAnomalyDetector`, and `anomaly_predict` (lines 531-535) ignores the
input entirely and prints the hard-coded not-trained error, since the fresh
detector has no trained model and none is loaded from anywhere. -/
def runCommand (sklearnAvailable : Bool) (trainRaises : Option String)
    (_input : List MLEntry) (command : String) : CLIOutput :=
  if command = "anomaly_train" then
    CLIOutput.trainOut (train sklearnAvailable initDetector trainRaises).2
  else if command = "anomaly_predict" then
    CLIOutput.predictErr "Model not trained. Run anomaly_train first."
  else if command = "forecast" then CLIOutput.external "forecast"
  else if command = "nlp_analyze" then CLIOutput.external "nlp_analyze"
  else if command = "threat_intel" then CLIOutput.external "threat_intel"
  else CLIOutput.unknown command

end MlModels

namespace PatternLearning

theorem processFile_length (src : String) (pairs : List (ℕ × RawLine))
    (h : ∀ p ∈ pairs, p.2 ≠ RawLine.jsonNonObject) :
    (processFile src pairs).length = pairs.countP (fun p => !p.2.isBlank) := by
  induction pairs with
  | nil => rfl
  | cons hd tl ih =>
    obtain ⟨n, l⟩ := hd
    have htl : ∀ p ∈ tl, p.2 ≠ RawLine.jsonNonObject :=
      fun p hp => h p (List.mem_cons_of_mem _ hp)
    cases l with
    | blank =>
      simpa [processFile, List.countP_cons, RawLine.isBlank] using ih htl
    | jsonObject e =>
      simp [processFile, List.countP_cons, RawLine.isBlank, ih htl]
    | jsonNonObject =>
      exact absurd rfl (h (n, RawLine.jsonNonObject) (List.mem_cons_self _ _))
    | plain p =>
      simp [processFile, List.countP_cons, RawLine.isBlank, ih htl]

theorem countP_enum_isBlank (ls : List RawLine) :
    ls.enum.countP (fun p => !p.2.isBlank) = ls.countP (fun l => !l.isBlank) := by
  conv_rhs => rw [← List.enum_map_snd ls]
  rw [List.countP_map]
  rfl

theorem temporal_mem_generate_predictions {α : Type} (df : List FeatureRecord)
    (pats : List α) :
    temporalPrediction ∈ generate_predictions df pats ↔
      (!df.isEmpty && !(df.all fun r => pd_isna r.timestamp)) = true := by
  have hne : temporalPrediction ≠ errorRatePrediction := by decide
  unfold generate_predictions
  by_cases h : (!df.isEmpty && !(df.all fun r => pd_isna r.timestamp)) = true
  · simp [h]
  · simp only [h, Bool.false_eq_true, if_false, List.nil_append, iff_false]
    intro hmem
    split at hmem
    · exact hne (List.mem_singleton.mp hmem)
    · exact List.not_mem_nil _ hmem

theorem temporal_mem_learn_patterns (km : List FeatureRecord → List ℕ)
    (iso : List FeatureRecord → List Bool) (df : List FeatureRecord) :
    temporalPrediction ∈ (learn_patterns km iso df).predictions ↔
      (df ≠ [] ∧ ¬ df.all (fun r => pd_isna r.timestamp)) := by
  rcases df with _ | ⟨a, as⟩
  · simp [learn_patterns]
  · have hpred : (learn_patterns km iso (a :: as)).predictions =
        generate_predictions (a :: as)
          (extract_cluster_patterns ((a :: as).zip (km (a :: as)))) := by
      simp [learn_patterns]
    rw [hpred, temporal_mem_generate_predictions]
    cases hb : pd_isna a.timestamp <;> simp [hb]

end PatternLearning

namespace MlModels

theorem le_foldl_max (l : List ℚ) (a : ℚ) :
    a ≤ l.foldl max a ∧ ∀ x ∈ l, x ≤ l.foldl max a := by
  induction l generalizing a with
  | nil => simp
  | cons b t ih =>
    refine ⟨le_trans (le_max_left a b) (ih (max a b)).1, ?_⟩
    intro x hx
    rcases List.mem_cons.mp hx with hx | hx
    · rw [hx]
      exact le_trans (le_max_right a b) (ih (max a b)).1
    · exact (ih (max a b)).2 x hx

theorem maxAbsScore_spec (scores : List ℚ) :
    0 ≤ maxAbsScore scores ∧ ∀ s ∈ scores, |s| ≤ maxAbsScore scores := by
  unfold maxAbsScore
  obtain ⟨h1, h2⟩ := le_foldl_max (scores.map fun s => |s|) 0
  exact ⟨h1, fun s hs => h2 |s| (List.mem_map_of_mem _ hs)⟩

theorem train_snd_state_independent (sk : Bool) (s s' : AnomalyDetectorState)
    (r : Option String) : (train sk s r).2 = (train sk s' r).2 := by
  cases sk <;> cases r <;> simp [train]

theorem train_state_of_not_success (sk : Bool) (s : AnomalyDetectorState)
    (r : Option String) (h : (train sk s r).2 ≠ TrainResult.success) :
    (train sk s r).1 = s := by
  cases sk <;> cases r <;> simp_all [train]

end MlModels

namespace PatternLearning

theorem calculate_confidence_nonneg (n p : ℕ) : 0 ≤ calculate_confidence n p := by
  unfold calculate_confidence
  split
  · exact le_refl 0
  · refine le_min (by norm_num) ?_
    have h1 : (0 : ℚ) ≤ min 1 ((n : ℚ) / 1000) :=
      le_min (by norm_num) (by positivity)
    have h2 : (0 : ℚ) ≤ (p : ℚ) / 10 := by positivity
    linarith

theorem calculate_confidence_le_one (n p : ℕ) : calculate_confidence n p ≤ 1 := by
  unfold calculate_confidence
  split
  · norm_num
  · exact min_le_left _ _

theorem calculate_confidence_mono (n₁ n₂ p : ℕ) (h : n₁ ≤ n₂) :
    calculate_confidence n₁ p ≤ calculate_confidence n₂ p := by
  unfold calculate_confidence
  rcases Decidable.em (p = 0) with hp | hp
  · simp [hp]
  rcases Decidable.em (n₁ = 0) with h1 | h1
  · rw [if_pos (Or.inl h1)]
    split
    · exact le_refl 0
    · refine le_min (by norm_num) ?_
      have ha : (0 : ℚ) ≤ min 1 ((n₂ : ℚ) / 1000) := le_min (by norm_num) (by positivity)
      have hb : (0 : ℚ) ≤ (p : ℚ) / 10 := by positivity
      linarith
  · have h2 : ¬ (n₂ = 0) := by omega
    rw [if_neg (by tauto), if_neg (by tauto)]
    have hmono : min 1 ((n₁ : ℚ) / 1000) ≤ min 1 ((n₂ : ℚ) / 1000) := by
      refine min_le_min (le_refl 1) ?_
      have : (n₁ : ℚ) ≤ (n₂ : ℚ) := by exact_mod_cast h
      linarith
    refine min_le_min (le_refl 1) ?_
    linarith

end PatternLearning

/-- C5 counterexample: with 100 records and a list of 30 patterns the code
returns `min(1, (0.1 + 3)/2) = 1`, while the claimed formula — the average
of the two *individually* capped terms — gives `(0.1 + 1)/2 = 0.55`: the
pattern-count term of `calculate_confidence` is not individually capped. -/
theorem C5_counterexample :
    PatternLearning.calculate_confidence 100 30 ≠
      PatternLearning.confidenceSpecC5 100 30 := by
  simp only [PatternLearning.calculate_confidence, PatternLearning.confidenceSpecC5,
    min_def]
  norm_num

/-- C5 (amended): `calculate_confidence` caps only the data-volume term and
the final average, not the pattern-count term; the claimed formula therefore
holds exactly when the pattern count is at most 10 (which covers every batch
of this pipeline, whose KMeans produces at most 5 clusters), and it returns
0 for an empty batch or empty pattern list. -/
theorem C5_confidence_amended (n p : ℕ) (hp : p ≤ 10) :
    PatternLearning.calculate_confidence n p = PatternLearning.confidenceSpecC5 n p := by
  simp only [PatternLearning.calculate_confidence, PatternLearning.confidenceSpecC5]
  split
  · rfl
  · have hp1 : ((p : ℚ)) / 10 ≤ 1 := by
      have hpq : (p : ℚ) ≤ 10 := by exact_mod_cast hp
      linarith
    rw [min_eq_right hp1]
    have h3 : min 1 ((n : ℚ) / 1000) ≤ 1 := min_le_left _ _
    exact min_eq_right (by linarith)

/-- Witness for C5 (amended) at 100 records and 5 patterns. -/
theorem C5_confidence_amended_witness :
    PatternLearning.calculate_confidence 100 5 = PatternLearning.confidenceSpecC5 100 5 :=
  C5_confidence_amended 100 5 (by norm_num)

/-- C6: with the pattern count fixed, `calculate_confidence` is
non-decreasing in the batch size, and its value always lies in [0, 1]. -/
theorem C6_confidence_monotone_bounded (n₁ n₂ p : ℕ) :
    (n₁ ≤ n₂ →
      PatternLearning.calculate_confidence n₁ p ≤
        PatternLearning.calculate_confidence n₂ p) ∧
    0 ≤ PatternLearning.calculate_confidence n₁ p ∧
    PatternLearning.calculate_confidence n₁ p ≤ 1 :=
  ⟨fun h => PatternLearning.calculate_confidence_mono n₁ n₂ p h,
   PatternLearning.calculate_confidence_nonneg n₁ p,
   PatternLearning.calculate_confidence_le_one n₁ p⟩

/-- Witness for C6 at batch sizes 10 ≤ 20 with 3 patterns. -/
theorem C6_confidence_monotone_bounded_witness :
    (PatternLearning.calculate_confidence 10 3 ≤
      PatternLearning.calculate_confidence 20 3) ∧
    0 ≤ PatternLearning.calculate_confidence 10 3 ∧
    PatternLearning.calculate_confidence 10 3 ≤ 1 :=
  ⟨(C6_confidence_monotone_bounded 10 20 3).1 (by norm_num),
   (C6_confidence_monotone_bounded 10 20 3).2.1,
   (C6_confidence_monotone_bounded 10 20 3).2.2⟩

/-- C7: on an empty input frame `learn_patterns` returns — without reaching
any model fit that could raise — the explicit empty result: empty pattern,
anomaly and prediction lists, confidence 0 and zero samples analyzed,
whatever the clustering and outlier oracles are. -/
theorem C7_learn_patterns_empty (km : List PatternLearning.FeatureRecord → List ℕ)
    (iso : List PatternLearning.FeatureRecord → List Bool) :
    PatternLearning.learn_patterns km iso [] =
      { patterns := [], anomalies := [], predictions := [], confidence := 0,
        samples_analyzed := 0, model_version := none } := rfl

/-- Witness for C7 with concrete (constant) oracles. -/
theorem C7_learn_patterns_empty_witness :
    PatternLearning.learn_patterns (fun _ => []) (fun _ => []) [] =
      { patterns := [], anomalies := [], predictions := [], confidence := 0,
        samples_analyzed := 0, model_version := none } :=
  C7_learn_patterns_empty (fun _ => []) (fun _ => [])

/-- C9: the `anomaly_predict` CLI branch prints the hard-coded error
dictionary for every input payload, every sklearn availability and every
training-exception oracle: it constructs a fresh untrained detector and no
model persistence exists, so it can never produce a prediction. -/
theorem C9_anomaly_predict_hardcoded_error (sk : Bool) (tr : Option String)
    (input : List MlModels.MLEntry) :
    MlModels.runCommand sk tr input "anomaly_predict" =
      MlModels.CLIOutput.predictErr "Model not trained. Run anomaly_train first." := rfl

/-- C4 counterexample: an entry with no `timestamp` key is re-extracted with
`datetime.now()` substituted, so the same unchanged record yields different
vectors when the clock has moved (here between hour 0 and hour 1): feature
extraction is not idempotent, contradicting the claim's "including one with
no timestamp field". -/
theorem C4_counterexample :
    MlModels.extract_features (fun _ => 0) ⟨0, 0, 1, 1⟩
        { timestamp := none, message := some "x" } ≠
      MlModels.extract_features (fun _ => 0) ⟨1, 0, 1, 1⟩
        { timestamp := none, message := some "x" } := by
  decide

/-- C4 (amended): for a record that carries a timestamp,
`LogAnomalyDetector.extract_features` does not depend on the wall clock at
all, so re-extracting the unchanged record — at any two times, with the
process-wide string hash fixed — yields identical vectors (and
`LogPatternLearner.extract_features` is a pure function of the record, hence
unconditionally idempotent); only a record without a timestamp field picks
up `datetime.now()` and can differ between calls. -/
theorem C4_extract_features_clock_independent (pyHash : String → ℤ)
    (now₁ now₂ : MlModels.Timestamp) (e : MlModels.MLEntry)
    (h : e.timestamp ≠ none) :
    MlModels.extract_features pyHash now₁ e = MlModels.extract_features pyHash now₂ e := by
  rcases ht : e.timestamp with _ | t
  · exact absurd ht h
  · simp [MlModels.extract_features, ht]

/-- Witness for C4 (amended): a concrete timestamped record extracted at two
different clock readings. -/
theorem C4_extract_features_clock_independent_witness :
    MlModels.extract_features (fun _ => 0) ⟨0, 0, 1, 1⟩
        { timestamp := some ⟨2, 3, 4, 5⟩, message := some "login failed" } =
      MlModels.extract_features (fun _ => 0) ⟨1, 0, 1, 1⟩
        { timestamp := some ⟨2, 3, 4, 5⟩, message := some "login failed" } :=
  C4_extract_features_clock_independent (fun _ => 0) ⟨0, 0, 1, 1⟩ ⟨1, 0, 1, 1⟩
    { timestamp := some ⟨2, 3, 4, 5⟩, message := some "login failed" } (by decide)

/-- C2 counterexample: a readable file whose first line is `42` — valid JSON
that is not an object — followed by a second, non-JSON line.  `json.loads`
succeeds on `42`, `extract_features` then raises `AttributeError` on the
integer, the per-file `except` skips the remainder of the file, and the
parser yields 0 records for 2 non-empty lines, contradicting the claimed
exactly-one-record-per-non-empty-line guarantee. -/
theorem C2_counterexample :
    (PatternLearning.parse_log_files
        [⟨"app.log", some [PatternLearning.RawLine.jsonNonObject,
          PatternLearning.RawLine.plain ⟨"another line", PatternLearning.TextParse.noMatch⟩]⟩]).length ≠
      PatternLearning.nonBlankCount
        [⟨"app.log", some [PatternLearning.RawLine.jsonNonObject,
          PatternLearning.RawLine.plain ⟨"another line", PatternLearning.TextParse.noMatch⟩]⟩] := by
  decide

/-- C2 (amended): empty (stripped) lines are skipped and every other
readable line contributes exactly one record, deterministically, provided no
line of any readable file parses as a JSON non-object value (a bare number,
string, boolean, null or array); such a line raises inside feature
extraction and the remainder of that file is dropped, keeping the records of
its earlier lines and continuing with the other files. -/
theorem C2_one_record_per_line_amended (files : List PatternLearning.FileInput)
    (h : ∀ f ∈ files, ∀ l ∈ f.content.getD [],
      l ≠ PatternLearning.RawLine.jsonNonObject) :
    (PatternLearning.parse_log_files files).length =
      PatternLearning.nonBlankCount files := by
  induction files with
  | nil => rfl
  | cons f rest ih =>
    have hrest := ih (fun g hg => h g (List.mem_cons_of_mem _ hg))
    cases hc : f.content with
    | none =>
      simp [PatternLearning.parse_log_files, PatternLearning.nonBlankCount, hc, hrest]
    | some ls =>
      have hl : ∀ p ∈ ls.enum, p.2 ≠ PatternLearning.RawLine.jsonNonObject := by
        intro p hp
        apply h f (List.mem_cons_self _ _)
        rw [hc]
        have hmem : p.2 ∈ ls.enum.map Prod.snd := List.mem_map_of_mem _ hp
        simpa [List.enum_map_snd] using hmem
      simp only [PatternLearning.parse_log_files, PatternLearning.nonBlankCount, hc,
        List.length_append]
      rw [PatternLearning.processFile_length f.name ls.enum hl, hrest,
        PatternLearning.countP_enum_isBlank ls]

/-- Witness for C2 (amended): a blank line, a plain-text line, a JSON-object
line and an unreadable file give 2 records for 2 non-empty readable lines. -/
theorem C2_one_record_per_line_amended_witness :
    (PatternLearning.parse_log_files
        [⟨"a.log", some [PatternLearning.RawLine.blank,
          PatternLearning.RawLine.plain ⟨"hello", PatternLearning.TextParse.noMatch⟩,
          PatternLearning.RawLine.jsonObject { message := some (PatternLearning.PyVal.str "hi") }]⟩,
         ⟨"missing.log", none⟩]).length =
      PatternLearning.nonBlankCount
        [⟨"a.log", some [PatternLearning.RawLine.blank,
          PatternLearning.RawLine.plain ⟨"hello", PatternLearning.TextParse.noMatch⟩,
          PatternLearning.RawLine.jsonObject { message := some (PatternLearning.PyVal.str "hi") }]⟩,
         ⟨"missing.log", none⟩] :=
  C2_one_record_per_line_amended _ (by decide)

/-- C10 counterexample: one parsed file whose single line is the JSON
object with an explicit null timestamp, `{"timestamp": null, "message":
"x"}`.  `json.loads` succeeds, the key *is* present so
`log_entry.get('timestamp', '')` returns `None` — not the empty-string
default — pandas treats that `None` as NA, `df['timestamp'].isna().all()`
is true, and the temporal prediction is not emitted although the batch is
non-empty: the claimed unconditional emission is false. -/
theorem C10_counterexample :
    PatternLearning.parse_log_files
        [⟨"n.log", some [PatternLearning.RawLine.jsonObject
          { timestamp := some PatternLearning.PyVal.null,
            message := some (PatternLearning.PyVal.str "x") }]⟩] ≠ [] ∧
    PatternLearning.temporalPrediction ∉
      (PatternLearning.learn_patterns (fun _ => []) (fun _ => [])
        (PatternLearning.parse_log_files
          [⟨"n.log", some [PatternLearning.RawLine.jsonObject
            { timestamp := some PatternLearning.PyVal.null,
              message := some (PatternLearning.PyVal.str "x") }]⟩])).predictions := by
  constructor
  · decide
  · rw [PatternLearning.temporal_mem_learn_patterns]
    rintro ⟨-, hcontra⟩
    exact hcontra (by decide)

/-- C10 (amended): for a batch produced by the learner's own parsing path,
`learn_patterns` emits the temporal-pattern prediction exactly when the
batch is non-empty and not every record's timestamp cell is NA, whatever
the clustering and outlier oracles.  `extract_features` substitutes the
empty string — a non-NA value — for an *absent* timestamp key, so the only
way the prediction is omitted on a non-empty batch is that every line
carried an explicit JSON-null timestamp, which reaches the frame as Python
`None` and is NA for pandas. -/
theorem C10_temporal_prediction_iff
    (km : List PatternLearning.FeatureRecord → List ℕ)
    (iso : List PatternLearning.FeatureRecord → List Bool)
    (files : List PatternLearning.FileInput) :
    PatternLearning.temporalPrediction ∈
      (PatternLearning.learn_patterns km iso
        (PatternLearning.parse_log_files files)).predictions ↔
    (PatternLearning.parse_log_files files ≠ [] ∧
      ¬ (PatternLearning.parse_log_files files).all
        (fun r => PatternLearning.pd_isna r.timestamp)) := by
  exact PatternLearning.temporal_mem_learn_patterns km iso
    (PatternLearning.parse_log_files files)

/-- Witness for C10 (amended): one file with one raw text line — its
timestamp key absent, hence stored as the non-NA empty string — produces
the temporal prediction. -/
theorem C10_temporal_prediction_iff_witness :
    PatternLearning.temporalPrediction ∈
      (PatternLearning.learn_patterns (fun _ => []) (fun _ => [])
        (PatternLearning.parse_log_files
          [⟨"w.log", some [PatternLearning.RawLine.plain
            ⟨"hello world", PatternLearning.TextParse.noMatch⟩]⟩])).predictions :=
  (C10_temporal_prediction_iff (fun _ => []) (fun _ => [])
    [⟨"w.log", some [PatternLearning.RawLine.plain
      ⟨"hello world", PatternLearning.TextParse.noMatch⟩]⟩]).mpr (by decide)

/-- C8: if every `train` call so far returned an error — scikit-learn
missing, or an exception during feature extraction or any fit, raised before
the `is_trained` assignment — then `predict` on the resulting detector state
(including the fresh state with no `train` call at all) returns the explicit
not-trained error dictionary rather than predictions. -/
theorem C8_predict_rejected_before_successful_train (sk : Bool)
    (runs : List (Option String))
    (h : ∀ r ∈ runs,
      (MlModels.train sk MlModels.initDetector r).2 ≠ MlModels.TrainResult.success)
    (models : List MlModels.Detector) (n : ℕ) :
    MlModels.predict sk (MlModels.runTrains sk MlModels.initDetector runs) models n =
      MlModels.PredictOutput.error "Models not available or not trained" := by
  have key : ∀ (rs : List (Option String)) (s : MlModels.AnomalyDetectorState),
      s.is_trained = false →
      (∀ r ∈ rs,
        (MlModels.train sk MlModels.initDetector r).2 ≠ MlModels.TrainResult.success) →
      (MlModels.runTrains sk s rs).is_trained = false := by
    intro rs
    induction rs with
    | nil =>
      intro s hs _
      simpa [MlModels.runTrains] using hs
    | cons r rest ih =>
      intro s hs hall
      have h1 : (MlModels.train sk s r).2 ≠ MlModels.TrainResult.success := by
        rw [MlModels.train_snd_state_independent sk s MlModels.initDetector r]
        exact hall r (List.mem_cons_self _ _)
      have h2 : (MlModels.train sk s r).1 = s :=
        MlModels.train_state_of_not_success sk s r h1
      simp only [MlModels.runTrains, h2]
      exact ih s hs (fun r' hr' => hall r' (List.mem_cons_of_mem _ hr'))
  have hst := key runs MlModels.initDetector rfl h
  simp [MlModels.predict, hst]

/-- Witness for C8: one failed training call (an exception during fitting),
then a prediction attempt. -/
theorem C8_predict_rejected_before_successful_train_witness :
    MlModels.predict true
        (MlModels.runTrains true MlModels.initDetector [some "fit failed"]) [] 0 =
      MlModels.PredictOutput.error "Models not available or not trained" :=
  C8_predict_rejected_before_successful_train true [some "fit failed"] (by decide) [] 0

/-- C1: in a successful `predict` run with a non-empty trained detector set,
a record is flagged as an ensemble anomaly (prediction -1) if and only if
the number of detectors flagging it is at least half the detector count
under exact (true-division) comparison — so a tie is anomalous — and its
ensemble anomaly score is the unweighted arithmetic mean of all detectors'
raw anomaly scores for that record. -/
theorem C1_ensemble_vote_and_mean (s : MlModels.AnomalyDetectorState)
    (hs : s.is_trained = true) (models : List MlModels.Detector)
    (hm : models ≠ []) (n i : ℕ) (hi : i < n) :
    MlModels.predict true s models n =
      MlModels.PredictOutput.success (models.map (MlModels.runDetector n))
        (MlModels.ensemble_predictions models n)
        (MlModels.ensemble_scores models n) n ∧
    ((MlModels.ensemble_predictions models n)[i]? = some (-1) ↔
      ((models.countP fun d => d.pred i == -1 : ℕ) : ℚ) ≥ (models.length : ℚ) / 2) ∧
    (MlModels.ensemble_scores models n)[i]? =
      some (some ((models.map fun d => d.score i).sum / (models.length : ℚ))) := by
  refine ⟨by simp [MlModels.predict, hs], ?_, ?_⟩
  · have hget : (MlModels.ensemble_predictions models n)[i]? =
        some (if ((MlModels.votes models i : ℚ) ≥ (models.length : ℚ) / 2)
          then (-1 : ℤ) else 1) := by
      simp [MlModels.ensemble_predictions, List.getElem?_map, List.getElem?_range, hi]
    rw [hget]
    constructor
    · intro he
      by_contra hc
      rw [if_neg ?_] at he
      · exact absurd (Option.some.inj he) (by norm_num)
      · simpa [MlModels.votes] using hc
    · intro hv
      rw [if_pos (by simpa [MlModels.votes] using hv)]
  · have hne : (models.map fun d => d.score i) ≠ [] := by
      simpa using hm
    simp [MlModels.ensemble_scores, List.getElem?_map, List.getElem?_range, hi,
      MlModels.npMean, hne]

/-- Witness for C1: one trained detector flagging the single record of a
one-record batch. -/
theorem C1_ensemble_vote_and_mean_witness :
    MlModels.predict true ⟨true⟩ [⟨fun _ => -1, fun _ => 5⟩] 1 =
      MlModels.PredictOutput.success
        ([⟨fun _ => -1, fun _ => 5⟩].map (MlModels.runDetector 1))
        (MlModels.ensemble_predictions [⟨fun _ => -1, fun _ => 5⟩] 1)
        (MlModels.ensemble_scores [⟨fun _ => -1, fun _ => 5⟩] 1) 1 ∧
    ((MlModels.ensemble_predictions [⟨fun _ => -1, fun _ => 5⟩] 1)[0]? = some (-1) ↔
      ((([⟨fun _ => -1, fun _ => 5⟩] : List MlModels.Detector).countP
          fun d => d.pred 0 == -1 : ℕ) : ℚ) ≥
        (([⟨fun _ => -1, fun _ => 5⟩] : List MlModels.Detector).length : ℚ) / 2) ∧
    (MlModels.ensemble_scores [⟨fun _ => -1, fun _ => 5⟩] 1)[0]? =
      some (some ((([⟨fun _ => -1, fun _ => 5⟩] : List MlModels.Detector).map
          fun d => d.score 0).sum /
        (([⟨fun _ => -1, fun _ => 5⟩] : List MlModels.Detector).length : ℚ))) :=
  C1_ensemble_vote_and_mean ⟨true⟩ rfl [⟨fun _ => -1, fun _ => 5⟩] (by simp) 1 0
    (by norm_num)

/-- C3 counterexample: for the score batch [-1, 2] the code returns
confidence |−1|/2 = 1/2 for the first record, not the claimed raw-score
quotient −1/2; and for the all-zero batch [0, 0], where the maximum absolute
score is 0, the code performs 0/0 and yields NaN (modelled `none`), not the
claimed 0. -/
theorem C3_counterexample :
    MlModels.confidence_scores [-1, 2] ≠
      (MlModels.confidenceSpecC3 [-1, 2]).map some ∧
    MlModels.confidence_scores [0, 0] ≠
      (MlModels.confidenceSpecC3 [0, 0]).map some := by
  have hmax : MlModels.maxAbsScore [-1, 2] = 2 := by
    simp only [MlModels.maxAbsScore, List.map_cons, List.map_nil, List.foldl_cons,
      List.foldl_nil]
    norm_num [max_def]
  have hmax0 : MlModels.maxAbsScore [0, 0] = 0 := by
    simp only [MlModels.maxAbsScore, List.map_cons, List.map_nil, List.foldl_cons,
      List.foldl_nil]
    norm_num [max_def]
  constructor
  · simp only [MlModels.confidence_scores, MlModels.confidenceSpecC3, hmax,
      MlModels.npDiv, List.map_cons, List.map_nil]
    norm_num
  · simp [MlModels.confidence_scores, MlModels.confidenceSpecC3, hmax0,
      MlModels.npDiv]

/-- C3 (amended): the per-record per-detector confidence is the *absolute
value* of the raw score divided by the detector's maximum absolute score
over the current batch — a well-defined value in [0, 1] whenever that
maximum is nonzero — while a zero maximum (which forces every raw score of
the batch to be 0) makes numpy divide 0 by 0 and return NaN (`none`), not
0; no exception is raised either way. -/
theorem C3_confidence_normalization (scores : List ℚ) (i : ℕ)
    (hi : i < scores.length) :
    (MlModels.maxAbsScore scores = 0 →
      (MlModels.confidence_scores scores)[i]? = some none ∧ scores.getD i 0 = 0) ∧
    (MlModels.maxAbsScore scores ≠ 0 →
      (MlModels.confidence_scores scores)[i]? =
        some (some (|scores.getD i 0| / MlModels.maxAbsScore scores)) ∧
      0 ≤ |scores.getD i 0| / MlModels.maxAbsScore scores ∧
      |scores.getD i 0| / MlModels.maxAbsScore scores ≤ 1) := by
  have hmem : scores.getD i 0 ∈ scores := by
    rw [List.getD_eq_getElem scores 0 hi]
    exact List.getElem_mem hi
  have hidx : (MlModels.confidence_scores scores)[i]? =
      some (MlModels.npDiv |scores.getD i 0| (MlModels.maxAbsScore scores)) := by
    simp only [MlModels.confidence_scores, List.getElem?_map,
      List.getElem?_eq_getElem hi, Option.map_some', List.getD_eq_getElem scores 0 hi]
  obtain ⟨hnn, hub⟩ := MlModels.maxAbsScore_spec scores
  constructor
  · intro h0
    have h1 : |scores.getD i 0| ≤ MlModels.maxAbsScore scores := hub _ hmem
    rw [h0] at h1
    have habs : |scores.getD i 0| = 0 := le_antisymm h1 (abs_nonneg _)
    exact ⟨by rw [hidx]; simp [MlModels.npDiv, h0], abs_eq_zero.mp habs⟩
  · intro h0
    have hpos : 0 < MlModels.maxAbsScore scores := lt_of_le_of_ne hnn (Ne.symm h0)
    have hle : |scores.getD i 0| ≤ MlModels.maxAbsScore scores := hub _ hmem
    refine ⟨by rw [hidx]; simp [MlModels.npDiv, h0], by positivity, ?_⟩
    exact (div_le_one hpos).mpr hle

/-- Witness for C3 (amended) on the concrete batch [-1, 2] at record 0. -/
theorem C3_confidence_normalization_witness :
    (MlModels.maxAbsScore [-1, 2] = 0 →
      (MlModels.confidence_scores [-1, 2])[0]? = some none ∧
      ([-1, 2] : List ℚ).getD 0 0 = 0) ∧
    (MlModels.maxAbsScore [-1, 2] ≠ 0 →
      (MlModels.confidence_scores [-1, 2])[0]? =
        some (some (|([-1, 2] : List ℚ).getD 0 0| / MlModels.maxAbsScore [-1, 2])) ∧
      0 ≤ |([-1, 2] : List ℚ).getD 0 0| / MlModels.maxAbsScore [-1, 2] ∧
      |([-1, 2] : List ℚ).getD 0 0| / MlModels.maxAbsScore [-1, 2] ≤ 1) :=
  C3_confidence_normalization [-1, 2] 0 (by simp)
